import Mathlib

/-!
# The ROI value type of the VL53L1X driver (`src/vl53l1x/roi.h`)

`struct ROI` carries three `uint8_t` fields and offers three in-place setters
and the comparison operators `operator==` and `operator!=`.

Embedding:
* `uint8_t` is `Fin 256`: the setters take their argument by value as a
  `uint8_t`, so every value they can receive is one of `0 .. 255`, and no
  arithmetic is done on it;
* a setter mutates `*this`; here it takes the object and returns the updated one;
* `operator==` is `ROI.equals`, `operator!=` is `ROI.not_equals` (C++ operator
  names are not Lean identifiers).
-/

namespace esphome
namespace vl53l1x

/-- The C++ type `uint8_t`: the unsigned integers `0 .. 255`. -/
abbrev uint8_t : Type := Fin 256

/-- The aggregate `struct ROI { uint8_t width; uint8_t height; uint8_t center; ... }`. -/
structure ROI where
  width : uint8_t
  height : uint8_t
  center : uint8_t
  deriving DecidableEq, Repr

namespace ROI

/-- Source: `void set_width(uint8_t val) { this->width = val; }` -/
def set_width (self : ROI) (val : uint8_t) : ROI :=
  { self with width := val }

/-- Source: `void set_height(uint8_t val) { this->height = val; }` -/
def set_height (self : ROI) (val : uint8_t) : ROI :=
  { self with height := val }

/-- Source: `void set_center(uint8_t val) { this->center = val; }` -/
def set_center (self : ROI) (val : uint8_t) : ROI :=
  { self with center := val }

/-- Source: `bool operator==(const ROI &rhs) const
  { return width == rhs.width && height == rhs.height && center == rhs.center; }` -/
def equals (self rhs : ROI) : Bool :=
  self.width == rhs.width && self.height == rhs.height && self.center == rhs.center

/-- Source: `bool operator!=(const ROI &rhs) const { return !(rhs == *this); }`:
the operands of `operator==` are swapped, as in the source. -/
def not_equals (self rhs : ROI) : Bool :=
  !(equals rhs self)

/-- Default-initialisation `ROI r;`. The struct declares no constructor and no
default member initialiser, so its implicit default constructor is trivial and
initialises nothing: the three fields are whatever the object's storage held,
here the argument `storage`. -/
def default_init (storage : ROI) : ROI :=
  storage

/-- Value-initialisation `ROI{}` / `ROI()`: an aggregate without a user-provided
constructor is zero-initialised, whatever its storage held before. -/
def value_init (_storage : ROI) : ROI :=
  { width := 0, height := 0, center := 0 }

/-- One call of a setter of `struct ROI`, with its argument:
`set_width(val)`, `set_height(val)` or `set_center(val)`. -/
inductive SetterCall where
  | width (val : uint8_t)
  | height (val : uint8_t)
  | center (val : uint8_t)
  deriving DecidableEq, Repr

/-- Performs one setter call on the object, by the setter of the source that
the call names. -/
def call (self : ROI) : SetterCall → ROI
  | .width val => self.set_width val
  | .height val => self.set_height val
  | .center val => self.set_center val

/-- Performs a sequence of setter calls on the object, first call first. -/
def call_all (self : ROI) (calls : List SetterCall) : ROI :=
  calls.foldl call self

end ROI

/-! ## Helper lemmas -/

/-- Unfolding of `operator==` into a conjunction of field equalities. -/
theorem ROI.equals_iff (a b : ROI) :
    ROI.equals a b = true ↔ a.width = b.width ∧ a.height = b.height ∧ a.center = b.center := by
  simp [ROI.equals, and_assoc]

/-- Swapping the operands of `operator==` does not change its result. -/
theorem ROI.equals_swap (a b : ROI) : ROI.equals a b = ROI.equals b a := by
  rw [Bool.eq_iff_iff, ROI.equals_iff, ROI.equals_iff]
  constructor <;> rintro ⟨h1, h2, h3⟩ <;> exact ⟨h1.symm, h2.symm, h3.symm⟩

/-- The three setter calls `set_width(w)`, `set_height(h)`, `set_center(c)`, made
in any order on any object, leave the object with fields `w`, `h`, `c`. -/
theorem ROI.call_all_perm (r : ROI) (w h c : uint8_t) (calls : List ROI.SetterCall)
    (hp : calls.Perm [.width w, .height h, .center c]) :
    r.call_all calls = ⟨w, h, c⟩ := by
  have hw : ROI.SetterCall.width w ∈ calls := hp.symm.subset (by simp)
  have hh : ROI.SetterCall.height h ∈ calls := hp.symm.subset (by simp)
  have hc : ROI.SetterCall.center c ∈ calls := hp.symm.subset (by simp)
  obtain ⟨x, y, z, rfl⟩ := List.length_eq_three.mp hp.length_eq
  simp only [List.mem_cons, List.mem_singleton, List.not_mem_nil, or_false] at hw hh hc
  rcases hw with rfl | rfl | rfl <;> rcases hh with hh | hh | hh <;>
    first
    | exact absurd hh (by simp)
    | (subst hh
       rcases hc with hc | hc | hc <;>
         first
         | exact absurd hc (by simp)
         | (subst hc; rfl))

/-! ## Claims -/

/-- C1: for all 8-bit triples `(w1,h1,c1)` and `(w2,h2,c2)`, `operator==` on the
two ROIs built from them returns true if and only if `w1 = w2`, `h1 = h2` and
`c1 = c2`. -/
theorem C1_equals_iff_fields (w1 h1 c1 w2 h2 c2 : uint8_t) :
    ROI.equals ⟨w1, h1, c1⟩ ⟨w2, h2, c2⟩ = true ↔ w1 = w2 ∧ h1 = h2 ∧ c1 = c2 := by
  simp [ROI.equals, and_assoc]

/-- C2: for all ROIs `a`, `b`, `operator!=` applied to `(a, b)` is the negation
of `operator==` applied to `(a, b)` in the same order, although the source
negates `rhs == *this`. -/
theorem C2_not_equals_complement (a b : ROI) :
    ROI.not_equals a b = !(ROI.equals a b) := by
  unfold ROI.not_equals
  rw [ROI.equals_swap b a]

/-- C3: every setter is total and stores any 8-bit value `v` unchanged in its
own field: the field reads back as `v`, with the same numeric value, for every
`v` in `0 .. 255`; nothing is rejected or clamped. -/
theorem C3_setters_store_unchanged (r : ROI) (v : uint8_t) :
    ((r.set_width v).width = v ∧ (r.set_height v).height = v ∧ (r.set_center v).center = v) ∧
    ((r.set_width v).width.val = v.val ∧ (r.set_height v).height.val = v.val ∧
      (r.set_center v).center.val = v.val) :=
  ⟨⟨rfl, rfl, rfl⟩, rfl, rfl, rfl⟩

/-- C4: `set_width(v1)` followed by `set_width(v2)` leaves the width equal to
`v2`; calling `set_width(v)` twice leaves the width equal to `v`, and the ROI
after the two calls compares equal (`operator==`) to the ROI after one call. -/
theorem C4_set_width_last_write_wins (r : ROI) (v1 v2 v : uint8_t) :
    ((r.set_width v1).set_width v2).width = v2 ∧
    ((r.set_width v).set_width v).width = v ∧
    ROI.equals ((r.set_width v).set_width v) (r.set_width v) = true := by
  refine ⟨rfl, rfl, ?_⟩
  simp [ROI.equals, ROI.set_width]

/-- C5: from any initial ROI, `set_width(w)`, `set_height(h)`, `set_center(c)`
in this order leave the fields reading back as `w`, `h`, `c`. -/
theorem C5_three_setters_read_back (r : ROI) (w h c : uint8_t) :
    (((r.set_width w).set_height h).set_center c).width = w ∧
    (((r.set_width w).set_height h).set_center c).height = h ∧
    (((r.set_width w).set_height h).set_center c).center = c :=
  ⟨rfl, rfl, rfl⟩

/-- C5 at the scenario values: width 16, height 16, center 199, starting from
an object whose fields held 3, 5, 7. -/
theorem C5_three_setters_read_back_witness :
    (((ROI.mk 3 5 7).set_width 16).set_height 16).set_center 199 = ROI.mk 16 16 199 ∧
    ((((ROI.mk 3 5 7).set_width 16).set_height 16).set_center 199).width = 16 ∧
    ((((ROI.mk 3 5 7).set_width 16).set_height 16).set_center 199).height = 16 ∧
    ((((ROI.mk 3 5 7).set_width 16).set_height 16).set_center 199).center = 199 :=
  ⟨rfl, C5_three_setters_read_back (ROI.mk 3 5 7) 16 16 199⟩

/-- C6: setters of distinct fields commute up to `operator==`: width/height,
width/center and height/center may be applied in either order to the same ROI
and the two results compare equal. -/
theorem C6_distinct_setters_commute (r : ROI) (w h c : uint8_t) :
    ROI.equals ((r.set_width w).set_height h) ((r.set_height h).set_width w) = true ∧
    ROI.equals ((r.set_width w).set_center c) ((r.set_center c).set_width w) = true ∧
    ROI.equals ((r.set_height h).set_center c) ((r.set_center c).set_height h) = true := by
  simp [ROI.equals, ROI.set_width, ROI.set_height, ROI.set_center]

/-- C7: reflexivity, `operator==` of any ROI with itself is true. -/
theorem C7_equals_refl (a : ROI) : ROI.equals a a = true := by
  simp [ROI.equals]

/-- C8: symmetry, `operator==` gives the same result with its operands swapped. -/
theorem C8_equals_symm (a b : ROI) : ROI.equals a b = ROI.equals b a := by
  cases a; cases b
  simp only [ROI.equals]
  rw [Bool.eq_iff_iff]
  simp only [Bool.and_eq_true, beq_iff_eq]
  constructor <;> rintro ⟨⟨h1, h2⟩, h3⟩ <;> exact ⟨⟨h1.symm, h2.symm⟩, h3.symm⟩

/-- C9: two ROIs with the same width and the same height but different centers:
`operator==` is false and `operator!=` is true. -/
theorem C9_center_differs (a b : ROI) (hw : a.width = b.width) (hh : a.height = b.height)
    (hc : a.center ≠ b.center) :
    ROI.equals a b = false ∧ ROI.not_equals a b = true := by
  have hc2 : ¬ b.center = a.center := fun h => hc h.symm
  simp [ROI.equals, ROI.not_equals, hw, hh, hc, hc2]

/-- C9 at width 16, height 16, centers 199 and 200. -/
theorem C9_center_differs_witness :
    ((ROI.mk 16 16 199).width = (ROI.mk 16 16 200).width ∧
      (ROI.mk 16 16 199).height = (ROI.mk 16 16 200).height ∧
      (ROI.mk 16 16 199).center ≠ (ROI.mk 16 16 200).center) ∧
    (ROI.equals (ROI.mk 16 16 199) (ROI.mk 16 16 200) = false ∧
      ROI.not_equals (ROI.mk 16 16 199) (ROI.mk 16 16 200) = true) :=
  ⟨⟨rfl, rfl, by decide⟩, C9_center_differs (ROI.mk 16 16 199) (ROI.mk 16 16 200) rfl rfl (by decide)⟩

/-- C10, as stated, fails: a default-initialised ROI (`ROI r;`) whose storage
held width 7, height 0, center 0 does not have all three fields equal to 0, and
`operator==` between it and a default-initialised ROI whose storage held zeros
is false. -/
theorem C10_default_init_counterexample :
    ¬ (((ROI.default_init ⟨7, 0, 0⟩).width = 0 ∧ (ROI.default_init ⟨7, 0, 0⟩).height = 0 ∧
          (ROI.default_init ⟨7, 0, 0⟩).center = 0) ∧
        ROI.equals (ROI.default_init ⟨7, 0, 0⟩) (ROI.default_init ⟨0, 0, 0⟩) = true) := by
  decide

/-- C10, amended: a value-initialised ROI (`ROI{}` / `ROI()`) has width, height
and center equal to 0 whatever its storage held, and `operator==` between two
value-initialised ROIs is true. -/
theorem C10_value_init_zero (s1 s2 : ROI) :
    ((ROI.value_init s1).width = 0 ∧ (ROI.value_init s1).height = 0 ∧
      (ROI.value_init s1).center = 0) ∧
    ROI.equals (ROI.value_init s1) (ROI.value_init s2) = true :=
  ⟨⟨rfl, rfl, rfl⟩, rfl⟩

/-- C11: frame property of the setters: `set_width` leaves height and center
unchanged, `set_height` leaves width and center unchanged, `set_center` leaves
width and height unchanged. -/
theorem C11_setters_frame (r : ROI) (v : uint8_t) :
    ((r.set_width v).height = r.height ∧ (r.set_width v).center = r.center) ∧
    ((r.set_height v).width = r.width ∧ (r.set_height v).center = r.center) ∧
    ((r.set_center v).width = r.width ∧ (r.set_center v).height = r.height) :=
  ⟨⟨rfl, rfl⟩, ⟨rfl, rfl⟩, ⟨rfl, rfl⟩⟩

/-- C12: transitivity: if `operator==` is true of `(a, b)` and of `(b, c)` then it
is true of `(a, c)`; with reflexivity and symmetry, the relation "`operator==`
returns true" is an equivalence relation on ROI values. -/
theorem C12_equals_trans_equivalence :
    (∀ a b c : ROI, ROI.equals a b = true → ROI.equals b c = true → ROI.equals a c = true) ∧
    Equivalence (fun a b : ROI => ROI.equals a b = true) := by
  have htrans : ∀ a b c : ROI, ROI.equals a b = true → ROI.equals b c = true →
      ROI.equals a c = true := by
    intro a b c hab hbc
    rw [ROI.equals_iff] at hab hbc ⊢
    exact ⟨hab.1.trans hbc.1, hab.2.1.trans hbc.2.1, hab.2.2.trans hbc.2.2⟩
  refine ⟨htrans, ?_, ?_, ?_⟩
  · intro a
    exact (ROI.equals_iff a a).mpr ⟨rfl, rfl, rfl⟩
  · intro a b hab
    rw [ROI.equals_swap b a]
    exact hab
  · intro a b c hab hbc
    exact htrans a b c hab hbc

/-- C12 at three ROIs with width 16, height 16, center 199. -/
theorem C12_equals_trans_equivalence_witness :
    (ROI.equals (ROI.mk 16 16 199) (ROI.mk 16 16 199) = true ∧
      ROI.equals (ROI.mk 16 16 199) ((ROI.mk 16 16 0).set_center 199) = true) ∧
    ROI.equals (ROI.mk 16 16 199) ((ROI.mk 16 16 0).set_center 199) = true :=
  ⟨⟨rfl, rfl⟩,
    C12_equals_trans_equivalence.1 (ROI.mk 16 16 199) (ROI.mk 16 16 199)
      ((ROI.mk 16 16 0).set_center 199) rfl rfl⟩

/-- C13: the three setters determine an ROI: for any two ROIs `r1`, `r2` and any
`w`, `h`, `c`, making the calls `set_width(w)`, `set_height(h)`, `set_center(c)`
on `r1` in any order and on `r2` in any order gives two ROIs for which
`operator==` is true and `operator!=` is false. -/
theorem C13_setters_determine (r1 r2 : ROI) (w h c : uint8_t) (calls1 calls2 : List ROI.SetterCall)
    (h1 : calls1.Perm [.width w, .height h, .center c])
    (h2 : calls2.Perm [.width w, .height h, .center c]) :
    ROI.equals (r1.call_all calls1) (r2.call_all calls2) = true ∧
    ROI.not_equals (r1.call_all calls1) (r2.call_all calls2) = false := by
  rw [ROI.call_all_perm r1 w h c calls1 h1, ROI.call_all_perm r2 w h c calls2 h2]
  simp [ROI.not_equals, ROI.equals]

/-- C13 at `w = 16`, `h = 16`, `c = 199`: center, width, height on an ROI that
held 3, 5, 7 and height, center, width on an ROI that held 250, 0, 1. -/
theorem C13_setters_determine_witness :
    ([ROI.SetterCall.center 199, .width 16, .height 16].Perm [.width 16, .height 16, .center 199] ∧
      [ROI.SetterCall.height 16, .center 199, .width 16].Perm [.width 16, .height 16, .center 199]) ∧
    (ROI.equals ((((ROI.mk 3 5 7).set_center 199).set_width 16).set_height 16)
        ((((ROI.mk 250 0 1).set_height 16).set_center 199).set_width 16) = true ∧
      ROI.not_equals ((((ROI.mk 3 5 7).set_center 199).set_width 16).set_height 16)
        ((((ROI.mk 250 0 1).set_height 16).set_center 199).set_width 16) = false) :=
  ⟨⟨by decide, by decide⟩,
    C13_setters_determine (ROI.mk 3 5 7) (ROI.mk 250 0 1) 16 16 199
      [.center 199, .width 16, .height 16] [.height 16, .center 199, .width 16]
      (by decide) (by decide)⟩

end vl53l1x
end esphome
